import Mathlib

/-!
Verification development for the smartclient-rpc Node.js server.

The JavaScript sources are shallowly embedded: JavaScript values that the
claims touch are modelled by the inductive `JSVal` (numbers as integers —
no claim involves fractional values), JavaScript objects/records by
association lists `Rec`, and the knex query-builder chains of
`SQLDataSource._parseAdvancedCriteria` by the predicate AST `SQLFrag`
(each builder call `where/whereNull/whereNotNull/orWhere.../whereRaw/whereIn`
becomes one constructor application, conjunctive calls combine with `andF`,
`orWhere...` calls with `orF`; the rendering of the AST to a concrete SQL
string is not modelled, the claims are about which predicate is emitted).
Fallible code returns `Except`; a thrown Node `AssertionError` or JavaScript
`TypeError` is an `Except.error`.
-/

namespace SCRPC

/-- Model of a JavaScript value as far as the claims need it: `undefined`,
`null`, strings, integer numbers and booleans.  Array values only occur for
the set operators (`inSet`/`notInSet`) and for array-valued simple criteria,
which no claim touches, so they are outside the model. -/
inductive JSVal where
  | undefined
  | null
  | str (s : String)
  | num (n : Int)
  | bool (b : Bool)
deriving Repr, DecidableEq

/-- JavaScript truthiness of a `JSVal` (`if (v)`): `undefined`, `null`,
`false`, `0` and the empty string are falsy, everything else truthy. -/
def jsTruthy : JSVal → Bool
  | .undefined => false
  | .null => false
  | .str s => s ≠ ""
  | .num n => n ≠ 0
  | .bool b => b

/-- JavaScript string conversion `"" + v` for the values the claims use. -/
def jsToString : JSVal → String
  | .undefined => "undefined"
  | .null => "null"
  | .str s => s
  | .num n => toString n
  | .bool b => cond b "true" "false"

/-- JavaScript `parseInt(v, 10)` restricted to the shapes the claims use: an
integer number parses to itself, a string holding an optionally signed decimal
integer parses to it, everything else is `NaN` (modelled as `none`). -/
def jsParseInt : JSVal → Option Int
  | .num n => some n
  | .str s => s.toInt?
  | _ => none

/-- JavaScript `String.prototype.substring(start, finish)`: both indices are
clamped to `[0, length]` and swapped when `start > finish`; the characters of
the half-open interval are returned.  `SQLDataSource.matchPatternToSQL` calls
`value.substring(i, 1)`, so the swap behaviour matters. -/
def jsSubstring (s : String) (start finish : Nat) : String :=
  let len := s.length
  let a := min start len
  let b := min finish len
  (((s.toList).drop (min a b)).take (max a b - min a b)).asString

/-- JavaScript `String.prototype.split(sep)` for a non-empty separator
(the separators used are "?" and "/"). -/
def jsSplit (s : String) (sep : String) : List String :=
  s.splitOn sep

/-- `Const.ESCAPE_CHARACTER` (src/lib/Const.js line 1466). -/
def escapeCharacter : String := "~"

/-- `Const.STATUS_SUCCESS` (src/lib/Const.js line 71). -/
def statusSuccess : Int := 0

/-- `Const.STATUS_FAILURE` (src/lib/Const.js line 80). -/
def statusFailure : Int := -1

/-- `Const.STATUS_TRANSACTION_FAILED` (src/lib/Const.js line 98). -/
def statusTransactionFailed : Int := -10

/-- Global replacement `s.replace(new RegExp(pat, 'g'), rep)` for the
single-character patterns `escapeSQLLikeValue` uses (its escape character is
always `Const.ESCAPE_CHARACTER`, and `_` and `%` are single characters);
a pattern that is not a single character is left untouched, no call site
produces one. -/
def jsReplaceAll (s pat rep : String) : String :=
  match pat.toList with
  | [p] => ((s.toList).foldr (fun c acc => if c = p then rep.toList ++ acc else c :: acc) []).asString
  | _ => s

/-- `SQLDataSource.escapeSQLLikeValue(value, escapeChar)`
(src/lib/datasource/SQLDataSource.js lines 167-176): `undefined`/`null`
becomes the empty string, otherwise the value is stringified and the escape
character, then `_`, then `%` are each globally replaced by the escape
character followed by themselves. -/
def escapeSQLLikeValue (value : JSVal) (escapeChar : String) : String :=
  if value = .undefined ∨ value = .null then ""
  else
    jsReplaceAll
      (jsReplaceAll
        (jsReplaceAll (jsToString value) escapeChar (escapeChar ++ escapeChar))
        "_" (escapeChar ++ "_"))
      "%" (escapeChar ++ "%")

/-- One iteration of the loop body of `SQLDataSource.matchPatternToSQL`
(src/lib/datasource/SQLDataSource.js lines 195-227).  The accumulator is
(`newValue`, `foundEscapeCharacter`); `singleChar` is whatever
`value.substring(i, 1)` produced — the source compares it as a string, so it
can be empty or longer than one character. -/
def matchStep (escapeChar : String) (acc : String × Bool) (singleChar : String) : String × Bool :=
  let newValue := acc.1
  let foundEscapeCharacter := acc.2
  if foundEscapeCharacter then (newValue ++ singleChar, false)
  else if singleChar = "\\" then (newValue, true)
  else if singleChar = "*" then (newValue ++ "%", false)
  else if singleChar = "?" ∨ singleChar = "%" then (newValue ++ "_", false)
  else if singleChar = escapeChar then (newValue ++ escapeChar ++ escapeChar, false)
  else if singleChar = "%" then (newValue ++ escapeChar ++ "%", false)
  else if singleChar = "_" then (newValue ++ escapeChar ++ "_", false)
  else (newValue ++ singleChar, false)

/-- `SQLDataSource.matchPatternToSQL(value, escapeChar)`
(src/lib/datasource/SQLDataSource.js lines 185-229).  The loop index runs over
`0 ≤ i < value.length` and the scanned chunk is `value.substring(i, 1)` —
not `charAt(i)` — which this embedding reproduces through `jsSubstring`. -/
def matchPatternToSQL (value : JSVal) (escapeChar : String) : String :=
  if value = .undefined ∨ value = .null then ""
  else
    let v := jsToString value
    (((List.range v.length).map (fun i => jsSubstring v i 1)).foldl
      (matchStep escapeChar) ("", false)).1

example : matchPatternToSQL (.str "a") escapeCharacter = "a" := by decide
example : matchPatternToSQL (.str "ab") escapeCharacter = "a" := by decide
example : matchPatternToSQL (.str "abcd") escapeCharacter = "abbc" := by decide
example : matchPatternToSQL (.str "*") escapeCharacter = "%" := by decide
example : matchPatternToSQL (.str "%") escapeCharacter = "_" := by decide
example : matchPatternToSQL (.str "_") escapeCharacter = "~_" := by decide
example : escapeSQLLikeValue (.str "a_b%c~") escapeCharacter = "a~_b~%c~~" := by decide

/-! ## Data-source descriptor (src/lib/datasource/RESTDSRequest.js, class DataSource) -/

/-- One field of a data-source descriptor (`FieldDescriptor`): `name`,
optional `nativeName` (back-end column), `primaryKey`, scalar `type`. -/
structure DSField where
  name : String
  nativeName : Option String := none
  primaryKey : Bool := false
  ftype : Option String := none
deriving Repr, DecidableEq

/-- `DataSource.getField(name)` (RESTDSRequest.js lines 290-298): the first
field whose `name` equals the argument, `null` when there is none. -/
def getField (fields : List DSField) (name : String) : Option DSField :=
  fields.find? (fun f => f.name = name)

/-- The SQL column of one field, as `SQLDataSource.getSQLColumn` resolves it
(SQLDataSource.js lines 115-124): `nativeName` when truthy, else `name`. -/
def fieldSQLColumn (field : DSField) : String :=
  match field.nativeName with
  | some nn => if nn = "" then field.name else nn
  | none => field.name

/-- `DataSource.pkFields` (RESTDSRequest.js lines 305-314): the fields with
`primaryKey === true`, in descriptor order. -/
def pkFields (fields : List DSField) : List DSField :=
  fields.filter (fun f => f.primaryKey)

/-- `DataSource.nonPKFields` (RESTDSRequest.js lines 321-330). -/
def nonPKFields (fields : List DSField) : List DSField :=
  fields.filter (fun f => ¬ f.primaryKey)

/-- `DataSource.fieldNames` (RESTDSRequest.js lines 337-346): the truthy
(non-empty) field names, in descriptor order. -/
def fieldNames (fields : List DSField) : List String :=
  fields.filterMap (fun f => if f.name = "" then none else some f.name)

/-! ## WHERE fragments of the advanced-criteria compiler

`SQLDataSource._parseAdvancedCriteria` builds each field criterion's fragment
with a fresh knex builder: an initial `whereRaw("")` and then one short chain
of builder calls whose rendered string (minus the `select * where ` prefix) is
returned.  The chains are embedded as the AST below — `where(col, v)` is
`cmp col "=" v`, `where(col, op, v)` is `cmp col op v`, `whereNull`/`whereNotNull`
are `isNullF`/`notNullF`, `whereRaw(sql, binds)` is `raw sql binds`, a second
and-combined call is `andF`, an `orWhere...` call is `orF`, `whereIn` is
`inListF`, and the constant strings `"1=1"`/`"1 = 1"` and `"1=2"` the source
returns directly are `alwaysTrue` and `alwaysFalse`. -/

/-- A parameter binding of a raw SQL snippet: `??` binds an identifier,
`?` binds a value. -/
inductive SQLBind where
  | ident (col : String)
  | val (v : JSVal)
deriving Repr, DecidableEq

/-- The WHERE-fragment AST (see the section comment above). -/
inductive SQLFrag where
  | empty
  | alwaysTrue
  | alwaysFalse
  | isNullF (col : String)
  | notNullF (col : String)
  | cmp (col : String) (op : String) (v : JSVal)
  | raw (sql : String) (binds : List SQLBind)
  | inListF (col : String) (vs : List JSVal)
  | notF (f : SQLFrag)
  | andF (l r : SQLFrag)
  | orF (l r : SQLFrag)
deriving Repr, DecidableEq

/-- One field criterion of an AdvancedCriteria tree as
`_parseAdvancedCriteria` reads it: `operator`, `fieldName`, `value`,
`start`, `end`. -/
structure FieldCriterion where
  operator : String
  fieldName : JSVal := .undefined
  value : JSVal := .undefined
  start : JSVal := .undefined
  endV : JSVal := .undefined
deriving Repr, DecidableEq

/-- The data `_parseAdvancedCriteria` consults besides the criterion: the
descriptor's fields (`this.getField`/`this.getSQLColumn`) and the request's
strict-filtering flag (`this.dsRequest.strictSQLFiltering`). -/
structure SQLDSContext where
  fields : List DSField
  requestStrict : JSVal := .undefined
deriving Repr

/-- The value of `this.strictSQLFiltering` inside `SQLDataSource`:
the class declares no such property (the flag lives on `this.dsRequest`),
so the reads in the `contains`/`startsWith`/`endsWith`, their `i`/`not`
variants and all pattern-operator branches (SQLDataSource.js lines 635, 643,
651, 659, 667, 675, 683, 691, 699, 707, 715, 723, 731, 739, 747, 755, 763,
771, 779, 787, 795, 803, 811, 819, 827, 835) evaluate to `undefined`. -/
def sqlDataSourceStrictSQLFiltering : JSVal := .undefined

/-- `if (!this.strictSQLFiltering) { q.whereNotNull(column); }` — the guard
appended after the like-predicate in the substring and pattern branches. -/
def addNotNullUnlessDSStrict (column : String) (f : SQLFrag) : SQLFrag :=
  if jsTruthy sqlDataSourceStrictSQLFiltering then f else .andF f (.notNullF column)

/-- The `inSet` branch (SQLDataSource.js lines 856-893) restricted to the
scalar values `JSVal` models: `null` value logs and returns `1=2`; a scalar
is wrapped into a one-element array, which contains no nulls, so the chain is
`whereIn(column, [value]).whereNotNull(column)`. -/
def parseInSetScalar (column : String) (value : JSVal) : SQLFrag :=
  if value = .null then .alwaysFalse
  else .andF (.inListF column [value]) (.notNullF column)

/-- The field-criterion dispatch of `SQLDataSource._parseAdvancedCriteria`
(SQLDataSource.js lines 346-1141): field resolution, `undefined → null`
normalisation of `value`/`start`/`end`, then one branch per operator.
An unknown field or a missing field name is logged and skipped (empty
fragment); set operators with array values are outside the model (see
`JSVal`); everything else is translated branch by branch. -/
def parseFieldCriterion (ctx : SQLDSContext) (criteria : FieldCriterion) : SQLFrag :=
  match criteria.fieldName with
  | .str fieldName =>
    match getField ctx.fields fieldName with
    | none => .empty
    | some field =>
      let column := fieldSQLColumn field
      let value := if criteria.value = .undefined then .null else criteria.value
      let start := if criteria.start = .undefined then .null else criteria.start
      let endV := if criteria.endV = .undefined then .null else criteria.endV
      let strict := jsTruthy ctx.requestStrict
      match criteria.operator with
      | "regexp" => .empty
      | "iregexp" => .empty
      | "equals" =>
        if strict then .cmp column "=" value
        else if value = .null then .isNullF column
        else .andF (.cmp column "=" value) (.notNullF column)
      | "notEqual" =>
        if strict then .cmp column "<>" value
        else if value = .null then .notNullF column
        -- source line 402: q.where(column, "<>", value).orWhereNotNull(column)
        else .orF (.cmp column "<>" value) (.notNullF column)
      | "greaterThan" =>
        if strict then .cmp column ">" value
        else if value = .null then .alwaysTrue
        else .andF (.cmp column ">" value) (.notNullF column)
      | "lessThan" =>
        if strict then .cmp column "<" value
        else if value = .null then .alwaysTrue
        else .orF (.cmp column "<" value) (.isNullF column)
      | "greaterOrEqual" =>
        if strict then .cmp column ">=" value
        else if value = .null then .alwaysTrue
        else .andF (.cmp column ">=" value) (.notNullF column)
      | "lessOrEqual" =>
        if strict then .cmp column "<=" value
        else if value = .null then .alwaysTrue
        else .orF (.cmp column "<=" value) (.isNullF column)
      | "between" =>
        if strict then .andF (.cmp column ">" start) (.cmp column "<" endV)
        else if start ≠ .null then
          if endV ≠ .null then
            .andF (.andF (.cmp column ">" start) (.cmp column "<" endV)) (.notNullF column)
          else .andF (.cmp column ">" start) (.notNullF column)
        else if endV ≠ .null then .orF (.cmp column "<" endV) (.isNullF column)
        else .alwaysTrue
      | "betweenInclusive" =>
        if strict then .andF (.cmp column ">=" start) (.cmp column "<=" endV)
        else if start ≠ .null then
          if endV ≠ .null then
            .andF (.andF (.cmp column ">=" start) (.cmp column "<=" endV)) (.notNullF column)
          else .andF (.cmp column ">=" start) (.notNullF column)
        else if endV ≠ .null then .orF (.cmp column "<=" endV) (.isNullF column)
        else .alwaysTrue
      | "iBetween" =>
        let rawGt := SQLFrag.raw "upper('' || ??) > upper('' || ?)" [.ident column, .val start]
        let rawLt := SQLFrag.raw "upper('' || ??) < upper('' || ?)" [.ident column, .val endV]
        if strict then .andF rawGt rawLt
        else if start ≠ .null then
          if endV ≠ .null then .andF (.andF rawGt rawLt) (.notNullF column)
          else .andF rawGt (.notNullF column)
        else if endV ≠ .null then .orF rawLt (.isNullF column)
        else .alwaysTrue
      | "iBetweenInclusive" =>
        let rawGe := SQLFrag.raw "upper('' || ??) >= upper('' || ?)" [.ident column, .val start]
        let rawLe := SQLFrag.raw "upper('' || ??) <= upper('' || ?)" [.ident column, .val endV]
        if strict then .andF rawGe rawLe
        else if start ≠ .null then
          if endV ≠ .null then .andF (.andF rawGe rawLe) (.notNullF column)
          else .andF rawGe (.notNullF column)
        else if endV ≠ .null then .orF rawLe (.isNullF column)
        else .alwaysTrue
      | "iEquals" =>
        let rawEq := SQLFrag.raw "upper('' || ??) = upper('' || ?)" [.ident column, .val value]
        if strict then rawEq
        else if value = .null then .isNullF column
        else .andF rawEq (.notNullF column)
      | "iNotEqual" =>
        let rawNe := SQLFrag.raw "upper('' || ??) <> upper('' || ?)" [.ident column, .val value]
        if strict then rawNe
        else if value = .null then .notNullF column
        -- source line 629: q.orWhereNull(column)
        else .orF rawNe (.isNullF column)
      | "contains" =>
        addNotNullUnlessDSStrict column (.raw "('' || ??) like ? escape ?"
          [.ident column, .val (.str ("%" ++ escapeSQLLikeValue value escapeCharacter ++ "%")),
           .val (.str escapeCharacter)])
      | "startsWith" =>
        addNotNullUnlessDSStrict column (.raw "('' || ??) like ? escape ?"
          [.ident column, .val (.str (escapeSQLLikeValue value escapeCharacter ++ "%")),
           .val (.str escapeCharacter)])
      | "endsWith" =>
        addNotNullUnlessDSStrict column (.raw "('' || ??) like ? escape ?"
          [.ident column, .val (.str ("%" ++ escapeSQLLikeValue value escapeCharacter)),
           .val (.str escapeCharacter)])
      | "iContains" =>
        addNotNullUnlessDSStrict column (.raw "upper('' || ??) like upper(?) escape ?"
          [.ident column, .val (.str ("%" ++ escapeSQLLikeValue value escapeCharacter ++ "%")),
           .val (.str escapeCharacter)])
      | "iStartsWith" =>
        addNotNullUnlessDSStrict column (.raw "upper('' || ??) like upper(?) escape ?"
          [.ident column, .val (.str (escapeSQLLikeValue value escapeCharacter ++ "%")),
           .val (.str escapeCharacter)])
      | "iEndsWith" =>
        addNotNullUnlessDSStrict column (.raw "upper('' || ??) like upper(?) escape ?"
          [.ident column, .val (.str ("%" ++ escapeSQLLikeValue value escapeCharacter)),
           .val (.str escapeCharacter)])
      | "notContains" =>
        addNotNullUnlessDSStrict column (.raw "('' || ??) not like ? escape ?"
          [.ident column, .val (.str ("%" ++ escapeSQLLikeValue value escapeCharacter ++ "%")),
           .val (.str escapeCharacter)])
      | "notStartsWith" =>
        addNotNullUnlessDSStrict column (.raw "('' || ??) not like ? escape ?"
          [.ident column, .val (.str (escapeSQLLikeValue value escapeCharacter ++ "%")),
           .val (.str escapeCharacter)])
      | "notEndsWith" =>
        addNotNullUnlessDSStrict column (.raw "('' || ??) not like ? escape ?"
          [.ident column, .val (.str ("%" ++ escapeSQLLikeValue value escapeCharacter)),
           .val (.str escapeCharacter)])
      | "iNotContains" =>
        addNotNullUnlessDSStrict column (.raw "upper('' || ??) not like upper(?) escape ?"
          [.ident column, .val (.str ("%" ++ escapeSQLLikeValue value escapeCharacter ++ "%")),
           .val (.str escapeCharacter)])
      | "iNotStartsWith" =>
        addNotNullUnlessDSStrict column (.raw "upper('' || ??) not like upper(?) escape ?"
          [.ident column, .val (.str (escapeSQLLikeValue value escapeCharacter ++ "%")),
           .val (.str escapeCharacter)])
      | "iNotEndsWith" =>
        addNotNullUnlessDSStrict column (.raw "upper('' || ??) not like upper(?) escape ?"
          [.ident column, .val (.str ("%" ++ escapeSQLLikeValue value escapeCharacter)),
           .val (.str escapeCharacter)])
      | "matchesPattern" =>
        addNotNullUnlessDSStrict column (.raw "('' || ??) like ? escape ?"
          [.ident column, .val (.str (matchPatternToSQL value escapeCharacter)),
           .val (.str escapeCharacter)])
      | "iMatchesPattern" =>
        addNotNullUnlessDSStrict column (.raw "upper('' || ??) like upper(?) escape ?"
          [.ident column, .val (.str (matchPatternToSQL value escapeCharacter)),
           .val (.str escapeCharacter)])
      | "containsPattern" =>
        addNotNullUnlessDSStrict column (.raw "('' || ??) like ? escape ?"
          [.ident column, .val (.str ("%" ++ matchPatternToSQL value escapeCharacter ++ "%")),
           .val (.str escapeCharacter)])
      | "startsWithPattern" =>
        addNotNullUnlessDSStrict column (.raw "('' || ??) like ? escape ?"
          [.ident column, .val (.str (matchPatternToSQL value escapeCharacter ++ "%")),
           .val (.str escapeCharacter)])
      | "endsWithPattern" =>
        addNotNullUnlessDSStrict column (.raw "('' || ??) like ? escape ?"
          [.ident column, .val (.str ("%" ++ matchPatternToSQL value escapeCharacter)),
           .val (.str escapeCharacter)])
      | "iContainsPattern" =>
        addNotNullUnlessDSStrict column (.raw "upper('' || ??) like upper(?) escape ?"
          [.ident column, .val (.str ("%" ++ matchPatternToSQL value escapeCharacter ++ "%")),
           .val (.str escapeCharacter)])
      | "iStartsWithPattern" =>
        addNotNullUnlessDSStrict column (.raw "upper('' || ??) like upper(?) escape ?"
          [.ident column, .val (.str (matchPatternToSQL value escapeCharacter ++ "%")),
           .val (.str escapeCharacter)])
      | "iEndsWithPattern" =>
        addNotNullUnlessDSStrict column (.raw "upper('' || ??) like upper(?) escape ?"
          [.ident column, .val (.str ("%" ++ matchPatternToSQL value escapeCharacter)),
           .val (.str escapeCharacter)])
      | "notContainsPattern" =>
        addNotNullUnlessDSStrict column (.raw "('' || ??) not like ? escape ?"
          [.ident column, .val (.str ("%" ++ matchPatternToSQL value escapeCharacter ++ "%")),
           .val (.str escapeCharacter)])
      | "notStartsWithPattern" =>
        addNotNullUnlessDSStrict column (.raw "('' || ??) not like ? escape ?"
          [.ident column, .val (.str (matchPatternToSQL value escapeCharacter ++ "%")),
           .val (.str escapeCharacter)])
      | "notEndsWithPattern" =>
        addNotNullUnlessDSStrict column (.raw "('' || ??) not like ? escape ?"
          [.ident column, .val (.str ("%" ++ matchPatternToSQL value escapeCharacter)),
           .val (.str escapeCharacter)])
      | "iNotContainsPattern" =>
        addNotNullUnlessDSStrict column (.raw "upper('' || ??) not like upper(?) escape ?"
          [.ident column, .val (.str ("%" ++ matchPatternToSQL value escapeCharacter ++ "%")),
           .val (.str escapeCharacter)])
      | "iNotStartsWithPattern" =>
        addNotNullUnlessDSStrict column (.raw "upper('' || ??) not like upper(?) escape ?"
          [.ident column, .val (.str (matchPatternToSQL value escapeCharacter ++ "%")),
           .val (.str escapeCharacter)])
      | "iNotEndsWithPattern" =>
        addNotNullUnlessDSStrict column (.raw "upper('' || ??) not like upper(?) escape ?"
          [.ident column, .val (.str ("%" ++ matchPatternToSQL value escapeCharacter)),
           .val (.str escapeCharacter)])
      | "isBlank" => .orF (.cmp column "=" (.str "")) (.isNullF column)
      | "notBlank" => .andF (.cmp column "<>" (.str "")) (.notNullF column)
      | "isNull" => .isNullF column
      | "notNull" => .notNullF column
      | "inSet" => parseInSetScalar column value
      | "notInSet" =>
        -- source lines 894-905: recompiles with operator "inSet", negates a
        -- non-empty fragment, turns an empty one into 1=2
        let inner := parseInSetScalar column value
        if inner = .empty then .alwaysFalse else .notF inner
      | _ =>
        -- cross-field operators: value names the other field
        match value with
        | .str otherFieldName =>
          match getField ctx.fields otherFieldName with
          | none => .alwaysTrue
          | some otherField =>
            let otherColumnName := fieldSQLColumn otherField
            match criteria.operator with
            | "equalsField" =>
              -- the source binds fieldName (not the resolved column) for ??
              if strict then .raw "(?? = ??)" [.ident fieldName, .ident otherColumnName]
              else .raw "(?? is null and ?? is null) or (?? = ?? and ?? is not null and ?? is not null)"
                [.ident fieldName, .ident otherColumnName, .ident fieldName,
                 .ident otherColumnName, .ident fieldName, .ident otherColumnName]
            | "notEqualField" =>
              if strict then .raw "(?? <> ??)" [.ident fieldName, .ident otherColumnName]
              else .raw "((?? is null and ?? is not null) or (?? is not null and ?? is null)) or (?? <> ?? and ?? is not null and ?? is not null)"
                [.ident fieldName, .ident otherColumnName, .ident fieldName, .ident otherColumnName,
                 .ident fieldName, .ident otherColumnName, .ident fieldName, .ident otherColumnName]
            | "iEqualsField" =>
              if strict then .raw "upper('' || ??) = upper('' || ??)" [.ident fieldName, .ident otherColumnName]
              else .raw "(?? is null and ?? is null) or (upper('' || ??) = upper('' || ??) and ?? is not null and ?? is not null)"
                [.ident fieldName, .ident otherColumnName, .ident fieldName,
                 .ident otherColumnName, .ident fieldName, .ident otherColumnName]
            | "iNotEqualField" =>
              if strict then .raw "upper('' || ??) <> upper('' || ??)" [.ident fieldName, .ident otherColumnName]
              -- source lines 958-960 miss the return statement, so control
              -- falls through to the final warn-and-skip (empty fragment)
              else .empty
            | "greaterThanField" =>
              if strict then .raw "(?? > ??)" [.ident fieldName, .ident otherColumnName]
              else .raw "(?? is not null and ?? is null) or (?? > ?? and ?? is not null and ?? is not null)"
                [.ident fieldName, .ident otherColumnName, .ident fieldName,
                 .ident otherColumnName, .ident fieldName, .ident otherColumnName]
            | "lessThanField" =>
              if strict then .raw "(?? < ??)" [.ident fieldName, .ident otherColumnName]
              else .raw "(?? is null and ?? is not null) or (?? < ?? and ?? is not null and ?? is not null)"
                [.ident fieldName, .ident otherColumnName, .ident fieldName,
                 .ident otherColumnName, .ident fieldName, .ident otherColumnName]
            | "greaterOrEqualField" =>
              if strict then .raw "(?? >= ??)" [.ident fieldName, .ident otherColumnName]
              else .raw "(?? is null) or (?? >= ?? and ?? is not null and ?? is not null)"
                [.ident otherColumnName, .ident fieldName, .ident otherColumnName,
                 .ident fieldName, .ident otherColumnName]
            | "lessOrEqualField" =>
              if strict then .raw "(?? <= ??)" [.ident fieldName, .ident otherColumnName]
              else .raw "(?? is null) or (?? <= ?? and ?? is not null and ?? is not null)"
                [.ident fieldName, .ident fieldName, .ident otherColumnName,
                 .ident fieldName, .ident otherColumnName]
            | "containsField" =>
              if strict then .raw "(('' || ??) like ('%' || ?? || '%'))" [.ident fieldName, .ident otherColumnName]
              else .raw "(?? is null) or (('' || ??) like ('%' || ?? || '%') and ?? is not null and ?? is not null)"
                [.ident otherColumnName, .ident fieldName, .ident otherColumnName,
                 .ident fieldName, .ident otherColumnName]
            | "startsWithField" =>
              if strict then .raw "(('' || ??) like ('' || ?? || '%'))" [.ident fieldName, .ident otherColumnName]
              else .raw "(?? is null) or (('' || ??) like ('' || ?? || '%') and ?? is not null and ?? is not null)"
                [.ident otherColumnName, .ident fieldName, .ident otherColumnName,
                 .ident fieldName, .ident otherColumnName]
            | "endsWithField" =>
              if strict then .raw "(('' || ??) like ('%' || ??))" [.ident fieldName, .ident otherColumnName]
              else .raw "(?? is null) or (('' || ??) like ('%' || ??) and ?? is not null and ?? is not null)"
                [.ident otherColumnName, .ident fieldName, .ident otherColumnName,
                 .ident fieldName, .ident otherColumnName]
            | "iContainsField" =>
              if strict then .raw "(upper('' || ??) like upper('%' || ?? || '%'))" [.ident fieldName, .ident otherColumnName]
              else .raw "(?? is null) or (upper('' || ??) like upper('%' || ?? || '%') and ?? is not null and ?? is not null)"
                [.ident otherColumnName, .ident fieldName, .ident otherColumnName,
                 .ident fieldName, .ident otherColumnName]
            | "iStartsWithField" =>
              if strict then .raw "(upper('' || ??) like upper('' || ?? || '%'))" [.ident fieldName, .ident otherColumnName]
              else .raw "(?? is null) or (upper('' || ??) like upper('' || ?? || '%') and ?? is not null and ?? is not null)"
                [.ident otherColumnName, .ident fieldName, .ident otherColumnName,
                 .ident fieldName, .ident otherColumnName]
            | "iEndsWithField" =>
              if strict then .raw "(upper('' || ??) like upper('%' || ??))" [.ident fieldName, .ident otherColumnName]
              else .raw "(?? is null) or (upper('' || ??) like upper('%' || ??) and ?? is not null and ?? is not null)"
                [.ident otherColumnName, .ident fieldName, .ident otherColumnName,
                 .ident fieldName, .ident otherColumnName]
            | "notContainsField" =>
              if strict then .raw "(('' || ??) not like ('%' || ?? || '%'))" [.ident fieldName, .ident otherColumnName]
              else .raw "not ((?? is null) or (('' || ??) like ('%' || ?? || '%') and ?? is not null and ?? is not null))"
                [.ident otherColumnName, .ident fieldName, .ident otherColumnName,
                 .ident fieldName, .ident otherColumnName]
            | "notStartsWithField" =>
              if strict then .raw "(('' || ??) not like ('' || ?? || '%'))" [.ident fieldName, .ident otherColumnName]
              else .raw "not ((?? is null) or (('' || ??) like ('' || ?? || '%') and ?? is not null and ?? is not null))"
                [.ident otherColumnName, .ident fieldName, .ident otherColumnName,
                 .ident fieldName, .ident otherColumnName]
            | "notEndsWithField" =>
              if strict then .raw "(('' || ??) not like ('%' || ??))" [.ident fieldName, .ident otherColumnName]
              else .raw "not ((?? is null) or (('' || ??) like ('%' || ??) and ?? is not null and ?? is not null))"
                [.ident otherColumnName, .ident fieldName, .ident otherColumnName,
                 .ident fieldName, .ident otherColumnName]
            | "iNotContainsField" =>
              if strict then .raw "(upper('' || ??) not like upper('%' || ?? || '%'))" [.ident fieldName, .ident otherColumnName]
              else .raw "not ((?? is null) or (upper('' || ??) like upper('%' || ?? || '%') and ?? is not null and ?? is not null))"
                [.ident otherColumnName, .ident fieldName, .ident otherColumnName,
                 .ident fieldName, .ident otherColumnName]
            | "iNotStartsWithField" =>
              if strict then .raw "(upper('' || ??) not like upper('' || ?? || '%'))" [.ident fieldName, .ident otherColumnName]
              else .raw "not ((?? is null) or (upper('' || ??) like upper('' || ?? || '%') and ?? is not null and ?? is not null))"
                [.ident otherColumnName, .ident fieldName, .ident otherColumnName,
                 .ident fieldName, .ident otherColumnName]
            | "iNotEndsWithField" =>
              if strict then .raw "(upper('' || ??) not like upper('%' || ??))" [.ident fieldName, .ident otherColumnName]
              else .raw "not ((?? is null) or (upper('' || ??) like upper('%' || ??) and ?? is not null and ?? is not null))"
                [.ident otherColumnName, .ident fieldName, .ident otherColumnName,
                 .ident fieldName, .ident otherColumnName]
            | _ => .empty
        | _ => .alwaysTrue
  | _ => .empty

/-- The strict-flag normalisation at the start of `SQLDataSource.executeFetch`
(SQLDataSource.js lines 1191-1197): an `undefined` request flag is replaced by
the configuration value `dataSource.strictSQLFiltering`, and then any flag
`typeof ... === "boolean"` — `true` included — is overwritten with `false`. -/
def normalizeStrictFlag (reqFlag configVal : JSVal) : JSVal :=
  let v := if reqFlag = .undefined then configVal else reqFlag
  match v with
  | .bool _ => .bool false
  | other => other

/-! ## Records and the DataSource projection helpers -/

/-- A JavaScript object as a record: an association list from property names
to values.  First match wins on lookup (JavaScript object keys are unique;
a list with duplicate keys behaves like the object that kept the first). -/
abbrev Rec := List (String × JSVal)

/-- The JavaScript `in` operator: does the record have the key. -/
def recHasKey (r : Rec) (n : String) : Bool :=
  (r.find? (fun p => p.1 = n)).isSome

/-- JavaScript property read `r[n]`: the value when present, `undefined`
otherwise. -/
def recGet (r : Rec) (n : String) : JSVal :=
  match r.find? (fun p => p.1 = n) with
  | some p => p.2
  | none => .undefined

/-- The loop of `DataSource.getPKValue` over the PK fields: each present
key contributes its value; the first PK field whose name is not a key of
`data` throws. -/
def getPKValueLoop (data : Rec) : List DSField → Except String Rec
  | [] => .ok []
  | f :: rest =>
    if recHasKey data f.name then
      match getPKValueLoop data rest with
      | .ok r => .ok ((f.name, recGet data f.name) :: r)
      | .error e => .error e
    else .error ("Missing value for PK field '" ++ f.name ++ "' ")

/-- `DataSource.getPKValue(data)` (RESTDSRequest.js lines 387-401): the
record of the PK fields' values from `data`; iterating the PK fields in
descriptor order, the first one whose name is not a key of `data` throws. -/
def getPKValue (fields : List DSField) (data : Rec) : Except String Rec :=
  getPKValueLoop data (pkFields fields)

/-- `DataSource.getNonPKValue(data)` (RESTDSRequest.js lines 409-421). -/
def getNonPKValue (fields : List DSField) (data : Rec) : Rec :=
  (nonPKFields fields).filterMap
    (fun f => if recHasKey data f.name then some (f.name, recGet data f.name) else none)

/-- The argument shape of `DataSource.toRecords(records)`: falsy (`null`),
a single object, or an array whose elements may themselves be null
(`recordList[ri] && fieldName in recordList[ri]` guards each element). -/
inductive RecordsIn where
  | nullIn
  | single (r : Rec)
  | list (rs : List (Option Rec))
deriving Repr, DecidableEq

/-- The result shape of `DataSource.toRecords`: `null`, a single record, or
an array of records. -/
inductive RecordsOut where
  | nullOut
  | single (r : Rec)
  | list (rs : List Rec)
deriving Repr, DecidableEq

/-- The value `toRecords` assigns for one field name: the input record's
value when the element is non-null and has the key
(`recordList[ri] && fieldName in recordList[ri]`), `null` otherwise. -/
def projValue (r : Option Rec) (n : String) : JSVal :=
  match r with
  | some rcd => if recHasKey rcd n then recGet rcd n else .null
  | none => .null

/-- The per-record projection inside `DataSource.toRecords`
(RESTDSRequest.js lines 444-455): one key per descriptor field name, the
input's value when the key is present, `null` otherwise. -/
def projectRecord (fields : List DSField) (r : Option Rec) : Rec :=
  (fieldNames fields).map (fun n => (n, projValue r n))

/-- `DataSource.toRecords(records)` (RESTDSRequest.js lines 431-461). -/
def toRecords (fields : List DSField) (records : RecordsIn) : RecordsOut :=
  match records with
  | .nullIn => .nullOut
  | .single r => .single (projectRecord fields (some r))
  | .list rs => .list (rs.map (fun r => projectRecord fields r))

/-- Feeds a `toRecords` result back as an argument (the identity on the
underlying JavaScript value). -/
def recordsOutToIn : RecordsOut → RecordsIn
  | .nullOut => .nullIn
  | .single r => .single r
  | .list rs => .list (rs.map some)

/-! ## SQL update / remove (src/lib/datasource/SQLDataSource.js) -/

/-- Outcome of `executeUpdate`/`executeRemove` as far as the claims reach:
a failure before any SQL is issued (`getPKValue` threw, or the projected PK
record is empty), the row-does-not-exist failure after the modifying query
reported fewer than one affected row, or success (the source then refreshes
by PK / answers with the PK record). -/
inductive SQLOpOutcome where
  | failBeforeSQL (msg : String)
  | rowNotFound (pkValue : Rec)
  | success (pkValue : Rec)
deriving Repr, DecidableEq

/-- `SQLDataSource.executeUpdate` (SQLDataSource.js lines 1370-1405) up to the
post-update refresh: project the PK from `criteria` (an exception reaches the
callback before any query), fail on an empty PK record, issue the update and
fail with the row-does-not-exist error when `affectedRows < 1`.
`affectedRows` stands for the processed result of the update query. -/
def executeUpdate (fields : List DSField) (criteria values : Rec) (affectedRows : Int) : SQLOpOutcome :=
  match getPKValue fields criteria with
  | .error e => .failBeforeSQL e
  | .ok pkValue =>
    if pkValue.length < 1 then .failBeforeSQL "Missing primary key"
    else
      let _updateValue := getNonPKValue fields values
      if affectedRows < 1 then .rowNotFound pkValue
      else .success pkValue

/-- `SQLDataSource.executeRemove` (SQLDataSource.js lines 1337-1363) up to the
response: same PK projection and empty-PK check, then the delete, failing
with the row-does-not-exist error when fewer than one row was affected. -/
def executeRemove (fields : List DSField) (criteria : Rec) (affectedRows : Int) : SQLOpOutcome :=
  match getPKValue fields criteria with
  | .error e => .failBeforeSQL e
  | .ok pkValue =>
    if pkValue.length < 1 then .failBeforeSQL "Missing primary key"
    else if affectedRows < 1 then .rowNotFound pkValue
    else .success pkValue

/-! ## DSResponse (src/unnamed/part_005, class DSResponse) -/

/-- The stored row-window parameters and status of a `DSResponse`
(`_responseData[startRow|endRow|totalRows]` and the BaseResponse status).
The constructor initialises all three window values to -1 (unset). -/
structure DSRespState where
  status : Int
  startRow : Int
  endRow : Int
  totalRows : Int
deriving Repr, DecidableEq

/-- The `startRow` setter (part_005 lines 138-144): `parseInt`, -1 when NaN. -/
def dsRespSetStartRow (s : DSRespState) (v : JSVal) : DSRespState :=
  let startRow := (jsParseInt v).getD (-1)
  { s with startRow := startRow }

/-- The `endRow` setter (part_005 lines 155-168): `parseInt` (-1 when NaN);
when the current `startRow` exceeds the new `endRow`, `startRow` is assigned
`endRow` when that is positive and 0 otherwise; then `endRow` is stored. -/
def dsRespSetEndRow (s : DSRespState) (v : JSVal) : DSRespState :=
  let endRow := (jsParseInt v).getD (-1)
  let s :=
    if s.startRow > endRow then
      if endRow > 0 then dsRespSetStartRow s (.num endRow)
      else dsRespSetStartRow s (.num 0)
    else s
  { s with endRow := endRow }

/-- The `totalRows` setter (part_005 lines 179-185). -/
def dsRespSetTotalRows (s : DSRespState) (v : JSVal) : DSRespState :=
  { s with totalRows := (jsParseInt v).getD (-1) }

/-- Does `DSResponse.toObject` (part_005 lines 224-241) include the
`startRow` key: only when the stored value is `>= 0`. -/
def dsRespToObjectHasStartRow (s : DSRespState) : Bool := s.startRow ≥ 0

/-- Does `DSResponse.toObject` include the `endRow` key. -/
def dsRespToObjectHasEndRow (s : DSRespState) : Bool := s.endRow ≥ 0

/-- Does `DSResponse.toObject` include the `totalRows` key. -/
def dsRespToObjectHasTotalRows (s : DSRespState) : Bool := s.totalRows ≥ 0

/-! ## SQL fetch paging and response statistics -/

/-- `DSRequest.startRow` getter (RESTDSRequest.js lines 871-878):
`parseInt(raw, 10)`, 0 when NaN. -/
def dsRequestStartRow (raw : JSVal) : Int := (jsParseInt raw).getD 0

/-- `DSRequest.endRow` getter (RESTDSRequest.js lines 885-892). -/
def dsRequestEndRow (raw : JSVal) : Int := (jsParseInt raw).getD 0

/-- The query paging applied by `SQLDataSource.executeFetch` and the
response it builds. -/
structure FetchPageResult where
  offset : Option Int
  limit : Option Int
  response : DSRespState
deriving Repr, DecidableEq

/-- The paging and response computation of `SQLDataSource.executeFetch`
(SQLDataSource.js lines 1258-1275): `parseInt(this.dsRequest.startRow)` —
the getter itself parses, defaulting to 0 — becomes the query offset unless
NaN (in which case `startRow` is reset to 0), `parseInt(this.dsRequest.endRow)`
the limit; the single select is issued (the source runs no count query), and
the response is populated through the DSResponse setters with
`startRow`, `endRow = startRow + result.length`, `totalRows = result.length`.
`rowCount` stands for `result.length`. -/
def executeFetchPaging (startRowRaw endRowRaw : JSVal) (rowCount : Nat) : FetchPageResult :=
  let startRow0 := jsParseInt (.num (dsRequestStartRow startRowRaw))
  let offset := startRow0
  let startRow := startRow0.getD 0
  let endRow0 := jsParseInt (.num (dsRequestEndRow endRowRaw))
  let limit := endRow0
  let resp0 : DSRespState := { status := statusSuccess, startRow := -1, endRow := -1, totalRows := -1 }
  let resp1 := dsRespSetStartRow resp0 (.num startRow)
  let resp2 := dsRespSetEndRow resp1 (.num (startRow + rowCount))
  let resp3 := dsRespSetTotalRows resp2 (.num rowCount)
  { offset := offset, limit := limit, response := resp3 }

/-! ## Completing an operation: commit / rollback (DS and RPC requests) -/

/-- An exception value; only its presence matters to the claims. -/
structure Exc where
  msg : String
deriving Repr, DecidableEq

/-- `DSResponse.STATUS_TRANSACTION_FAILED` as `DSRequest._executeFinish`
reads it (RESTDSRequest.js line 1051): neither DSResponse (src/unnamed/part_005)
nor BaseResponse (src/lib/BaseResponse.js) declares such a static member, so
the property access yields `undefined`. -/
def dsResponseStaticStatusTransactionFailed : JSVal := .undefined

/-- BaseResponse's `status` setter (src/lib/BaseResponse.js lines 89-92):
`assert.equal(typeof status, "number", ...)` throws an AssertionError for a
non-number; otherwise the floored number is stored. -/
def baseResponseSetStatus (v : JSVal) : Except String Int :=
  match v with
  | .num n => .ok n
  | _ => .error "Parameter 'status' must be number"

/-- How `_executeFinish` ends: the callback receives a response with the
given status (recording whether a rollback was attempted first and whether a
rollback failure was logged), or a thrown error escapes the commit callback
(no response reaches the callback). -/
inductive FinishOutcome where
  | respond (status : Int) (rollbackAttempted : Bool) (rollbackFailureLogged : Bool)
  | thrown (msg : String) (rollbackAttempted : Bool)
deriving Repr, DecidableEq

/-- `DSRequest._executeFinish(err, response, callback)` (RESTDSRequest.js
lines 1021-1066).  Execution error: rollback (failure only logged), respond
with `new DSResponse(err)` — status `STATUS_FAILURE`.  Execution success:
commit; when the commit fails, `response.status = DSResponse.STATUS_TRANSACTION_FAILED`
runs through BaseResponse's status setter before `self.rollback` is called.
`respStatus` is the status the response carried into the commit;
`commitOk`/`rollbackOk` stand for the outcomes of `this.commit`/`this.rollback`. -/
def dsExecuteFinish (err : Option Exc) (respStatus : Int) (commitOk rollbackOk : Bool) : FinishOutcome :=
  match err with
  | some _ => .respond statusFailure true (!rollbackOk)
  | none =>
    if commitOk then .respond respStatus false false
    else
      match baseResponseSetStatus dsResponseStaticStatusTransactionFailed with
      | .error e => .thrown e false
      | .ok n => .respond n true (!rollbackOk)

/-- `RPCRequest._executeFinish(err, response, callback)` (src/unnamed/part_001
lines 250-292): identical control flow, but the commit-failure branch assigns
`Const.STATUS_TRANSACTION_FAILED` (-10), which the status setter accepts,
and then rolls back; the rollback outcome is only logged. -/
def rpcExecuteFinish (err : Option Exc) (respStatus : Int) (commitOk rollbackOk : Bool) : FinishOutcome :=
  match err with
  | some _ => .respond statusFailure true (!rollbackOk)
  | none =>
    if commitOk then .respond respStatus false false
    else
      match baseResponseSetStatus (.num statusTransactionFailed) with
      | .error e => .thrown e false
      | .ok n => .respond n true (!rollbackOk)

/-! ## RPCManager: executing the batch (src/lib/RPCManager.js) -/

/-- The two operation families the response assembly distinguishes
(`op instanceof DSRequest`). -/
inductive OperationKind where
  | dsRequest
  | rpcRequest
deriving Repr, DecidableEq

/-- What one operation's execution left in its result slot: an `Error`
instance, a DSResponse, an RPCResponse, or a plain value. -/
inductive ExecResult where
  | errResult (e : Exc)
  | dsResponse (status : Int)
  | rpcResponse (status : Int)
  | rawValue (v : JSVal)
deriving Repr, DecidableEq

/-- A response slot of the assembled batch. -/
inductive BatchResponse where
  | dsResponse (status : Int)
  | rpcResponse (status : Int)
deriving Repr, DecidableEq

/-- The per-slot wrapping of `RPCManager._executeOperations`
(RPCManager.js lines 539-562): an `Error` result becomes a failure response
of the operation's family (`new DSResponse(error)` / `new RPCResponse(error)`
carry status `STATUS_FAILURE`); a response of the right family passes
through; anything else is wrapped as a fresh success-status response of the
operation's family (the BaseResponse constructor gives non-Error data status
`STATUS_SUCCESS`). -/
def wrapResult (op : OperationKind) (r : ExecResult) : BatchResponse :=
  match r, op with
  | .errResult _, .dsRequest => .dsResponse statusFailure
  | .errResult _, .rpcRequest => .rpcResponse statusFailure
  | .dsResponse s, .dsRequest => .dsResponse s
  | .dsResponse _, .rpcRequest => .rpcResponse statusSuccess
  | .rpcResponse s, .rpcRequest => .rpcResponse s
  | .rpcResponse _, .dsRequest => .dsResponse statusSuccess
  | .rawValue _, .dsRequest => .dsResponse statusSuccess
  | .rawValue _, .rpcRequest => .rpcResponse statusSuccess

/-- The result loop of `RPCManager._executeOperations` (RPCManager.js lines
539-562): one response pushed per result, reading `self.operations[i]` for
the i-th result (an index past the operations list reads `undefined`, which
fails the `instanceof DSRequest` test and lands in the RPC branches). -/
def assembleResponses : List OperationKind → List ExecResult → List BatchResponse
  | _, [] => []
  | ops, r :: rs => wrapResult (ops.headD .rpcRequest) r :: assembleResponses ops.tail rs

/-- Modelled from the spec: `Util.arrayExecutor(array, false, executor, callback)`
of the external srv-util package (its code is not under src/), as
`RPCManager._executeRequests` uses it — the spec's fan-out table for the
execute phase: sequential, does not stop on a per-operation error, and hands
the callback one result per operation in input order. -/
def arrayExecutorNoStop (ops : List OperationKind) (f : OperationKind → ExecResult) : List ExecResult :=
  ops.map f

/-! ## REST URL path parsing (src/lib/RESTProcessor.js) -/

/-- A thrown JavaScript error. -/
inductive JSErr where
  | typeError (msg : String)
deriving Repr, DecidableEq

/-- `RESTProcessor.requestPath` (RESTProcessor.js lines 208-221): for a truthy
wildcard path parameter the source computes
`pathParts = this.req.params["0"].split("?")` — an Array — and then calls
`pathParts.split("/")` on that Array; arrays have no `split` method, so the
call throws a TypeError and the empty-segment filtering below it is
unreachable.  A falsy parameter returns `[]`. -/
def requestPath (param0 : Option String) : Except JSErr (List String) :=
  match param0 with
  | some p =>
    if p ≠ "" then
      let _pathParts := jsSplit p "?"
      .error (.typeError "pathParts.split is not a function")
    else .ok []
  | none => .ok []

/-! ## Theorems for the claims -/

/-- C1. The claim says a fetch carrying `strictSQLFiltering = true` compiles
every field operator to the bare SQL predicate with no added null-handling.
The code does not: `executeFetch` overwrites every boolean flag — `true`
included — with `false` before compiling, and, independently, the substring
branches test the nonexistent property `this.strictSQLFiltering` instead of
`this.dsRequest.strictSQLFiltering`, so a `contains` criterion gets
`col is not null` appended even when the request flag is `true`. -/
theorem c1_strict_filtering_not_bare :
    (∀ configVal : JSVal, normalizeStrictFlag (.bool true) configVal = .bool false)
    ∧ parseFieldCriterion { fields := [{ name := "name" }], requestStrict := .bool true }
        { operator := "contains", fieldName := .str "name", value := .str "a" }
      = .andF
          (.raw "('' || ??) like ? escape ?"
            [.ident "name", .val (.str "%a%"), .val (.str "~")])
          (.notNullF "name") := by
  exact ⟨fun _ => rfl, by decide⟩

/-- C2. Lenient `notEqual` on a defined field: a `null` value compiles to
`col IS NOT NULL` as claimed, but a non-null value compiles to
`col <> v OR col IS NOT NULL` (the source calls `orWhereNotNull`), not to the
claimed `col <> v OR col IS NULL`. -/
theorem c2_notEqual_lenient_eval :
    parseFieldCriterion { fields := [{ name := "parent" }], requestStrict := .undefined }
        { operator := "notEqual", fieldName := .str "parent", value := .null }
      = .notNullF "parent"
    ∧ parseFieldCriterion { fields := [{ name := "parent" }], requestStrict := .undefined }
        { operator := "notEqual", fieldName := .str "parent", value := .num 42 }
      = .orF (.cmp "parent" "<>" (.num 42)) (.notNullF "parent")
    ∧ SQLFrag.orF (.cmp "parent" "<>" (.num 42)) (.notNullF "parent")
      ≠ SQLFrag.orF (.cmp "parent" "<>" (.num 42)) (.isNullF "parent") := by
  exact ⟨by decide, by decide, by decide⟩

/-- C3. On commit failure after a successful execute, the RPC request path
sets status -10 (`Const.STATUS_TRANSACTION_FAILED`), attempts the rollback
and only logs the rollback outcome — but the DS request path assigns the
nonexistent static `DSResponse.STATUS_TRANSACTION_FAILED` (`undefined`),
which makes the status setter throw an AssertionError before any rollback,
so no status -10 DSResponse is returned there. -/
theorem c3_commit_failure_outcomes :
    ∀ (respStatus : Int) (rollbackOk : Bool),
      dsExecuteFinish none respStatus false rollbackOk
        = .thrown "Parameter 'status' must be number" false
      ∧ rpcExecuteFinish none respStatus false rollbackOk
        = .respond statusTransactionFailed true (!rollbackOk) := by
  intro respStatus rollbackOk
  exact ⟨rfl, rfl⟩

/-- C4. The execute phase yields exactly one response slot per operation, in
input order: composing the result loop of `_executeOperations` with the
(spec-modelled) no-stop array executor gives `ops.map`, and for any result
list the i-th assembled slot is the wrap of the i-th result against the i-th
operation. -/
theorem c4_batch_slots_ordered :
    (∀ (ops : List OperationKind) (f : OperationKind → ExecResult),
        assembleResponses ops (arrayExecutorNoStop ops f)
          = ops.map (fun op => wrapResult op (f op))
        ∧ (assembleResponses ops (arrayExecutorNoStop ops f)).length = ops.length)
    ∧ (∀ (ops : List OperationKind) (results : List ExecResult) (i : Nat),
        (assembleResponses ops results)[i]?
          = (results[i]?).map (wrapResult ((ops[i]?).getD .rpcRequest))) := by
  constructor
  · intro ops f
    have h : ∀ ops : List OperationKind,
        assembleResponses ops (arrayExecutorNoStop ops f)
          = ops.map (fun op => wrapResult op (f op)) := by
      intro ops
      induction ops with
      | nil => rfl
      | cons op rest ih =>
        simp [assembleResponses, arrayExecutorNoStop] at ih ⊢
        exact ih
    refine ⟨h ops, ?_⟩
    rw [h ops]
    simp
  · intro ops results
    induction results generalizing ops with
    | nil => intro i; simp [assembleResponses]
    | cons r rs ih =>
      intro i
      cases i with
      | zero => cases ops <;> simp [assembleResponses]
      | succ j => cases ops <;> simp [assembleResponses, ih]

/-- C5. The pattern translation scans `value.substring(i, 1)` instead of the
i-th character, so it is not the claimed character-by-character map: the
two-character pattern "ab" translates to "a" (the claim requires "ab"), a
longer input duplicates inner slices ("abcd" gives "abbc"), and a lone "%"
is translated to the single-character wildcard "_" instead of being
SQL-escaped to "~%". -/
theorem c5_matchPatternToSQL_eval :
    matchPatternToSQL (.str "ab") escapeCharacter = "a"
    ∧ matchPatternToSQL (.str "abcd") escapeCharacter = "abbc"
    ∧ matchPatternToSQL (.str "%") escapeCharacter = "_" := by
  exact ⟨by decide, by decide, by decide⟩

/-- Closed form of `executeFetchPaging`: the setter chain never mutates
`startRow` because the assigned `endRow` is `startRow + rowCount ≥ startRow`. -/
lemma executeFetchPaging_eq (startRowRaw endRowRaw : JSVal) (rowCount : Nat) :
    executeFetchPaging startRowRaw endRowRaw rowCount =
      { offset := some (dsRequestStartRow startRowRaw),
        limit := some (dsRequestEndRow endRowRaw),
        response := { status := statusSuccess,
                      startRow := dsRequestStartRow startRowRaw,
                      endRow := dsRequestStartRow startRowRaw + rowCount,
                      totalRows := rowCount } } := by
  have hr : ¬ ((rowCount : Int) < 0) := by omega
  simp [executeFetchPaging, dsRespSetStartRow, dsRespSetEndRow, dsRespSetTotalRows,
    jsParseInt, hr]

/-- C6. `executeFetch` paging and response statistics: a numeric `startRow`
becomes the query offset and the response `startRow` (0 when the raw field
does not parse), a numeric `endRow` becomes the limit, and the response has
`endRow = startRow + rows.length`, `totalRows = rows.length`, status 0; the
fetch issues the single select only. -/
theorem c6_fetch_paging (startRowRaw endRowRaw : JSVal) (rowCount : Nat) :
    (∀ s : Int, jsParseInt startRowRaw = some s →
        (executeFetchPaging startRowRaw endRowRaw rowCount).offset = some s
        ∧ (executeFetchPaging startRowRaw endRowRaw rowCount).response.startRow = s)
    ∧ (jsParseInt startRowRaw = none →
        (executeFetchPaging startRowRaw endRowRaw rowCount).response.startRow = 0)
    ∧ (∀ e : Int, jsParseInt endRowRaw = some e →
        (executeFetchPaging startRowRaw endRowRaw rowCount).limit = some e)
    ∧ (executeFetchPaging startRowRaw endRowRaw rowCount).response.endRow
        = (executeFetchPaging startRowRaw endRowRaw rowCount).response.startRow + rowCount
    ∧ (executeFetchPaging startRowRaw endRowRaw rowCount).response.totalRows = rowCount
    ∧ (executeFetchPaging startRowRaw endRowRaw rowCount).response.status = statusSuccess := by
  rw [executeFetchPaging_eq]
  refine ⟨?_, ?_, ?_, by simp, rfl, rfl⟩
  · intro s hs
    simp [dsRequestStartRow, hs]
  · intro hs
    simp [dsRequestStartRow, hs]
  · intro e he
    simp [dsRequestEndRow, he]

/-- Witness for C6 at a concrete request window. -/
theorem c6_fetch_paging_witness :
    jsParseInt (.num 2) = some 2
    ∧ (executeFetchPaging (.num 2) (.num 5) 3).offset = some 2
    ∧ (executeFetchPaging (.num 2) (.num 5) 3).response.startRow = 2
    ∧ (executeFetchPaging (.num 2) (.num 5) 3).limit = some 5
    ∧ (executeFetchPaging (.num 2) (.num 5) 3).response.endRow = 5
    ∧ (executeFetchPaging (.num 2) (.num 5) 3).response.totalRows = 3 := by
  have h := c6_fetch_paging (.num 2) (.num 5) 3
  refine ⟨rfl, (h.1 2 rfl).1, (h.1 2 rfl).2, h.2.2.1 5 rfl, ?_, h.2.2.2.2.1⟩
  have he := h.2.2.2.1
  rw [(h.1 2 rfl).2] at he
  exact he

/-- A PK field whose name is missing from the data makes the PK loop throw. -/
lemma getPKValueLoop_error_of_missing (data : Rec) (l : List DSField) (f : DSField)
    (hf : f ∈ l) (hk : recHasKey data f.name = false) :
    ∃ msg, getPKValueLoop data l = .error msg := by
  induction l with
  | nil => cases hf
  | cons g rest ih =>
    by_cases hg : recHasKey data g.name = true
    · rcases List.mem_cons.mp hf with rfl | hf2
      · rw [hk] at hg; cases hg
      · obtain ⟨msg, hmsg⟩ := ih hf2
        exact ⟨msg, by simp [getPKValueLoop, hg, hmsg]⟩
    · exact ⟨"Missing value for PK field '" ++ g.name ++ "' ",
        by simp [getPKValueLoop, hg]⟩

/-- When every PK field's name is a key of the data, the PK loop succeeds
with one entry per PK field. -/
lemma getPKValueLoop_ok_of_all (data : Rec) (l : List DSField)
    (h : ∀ f ∈ l, recHasKey data f.name = true) :
    ∃ r : Rec, getPKValueLoop data l = .ok r ∧ r.length = l.length := by
  induction l with
  | nil => exact ⟨[], rfl, rfl⟩
  | cons g rest ih =>
    obtain ⟨r, hr, hlen⟩ := ih (fun f hf => h f (List.mem_cons_of_mem _ hf))
    refine ⟨(g.name, recGet data g.name) :: r, ?_, by simp [hlen]⟩
    simp [getPKValueLoop, h g (List.mem_cons_self _ _), hr]

/-- C7. SQL update and remove: a criteria record missing a value for some PK
field — or a descriptor with no PK fields at all — fails as a
missing-primary-key failure whose outcome does not depend on the back end
(no SQL is issued); when the full PK is present and the back end reports
fewer than one affected row, the operation fails with the
row-does-not-exist error. -/
theorem c7_update_remove_primary_key (fields : List DSField) (criteria values : Rec)
    (affected : Int) :
    ((∃ f ∈ pkFields fields, recHasKey criteria f.name = false) →
      ∃ msg, (∀ a : Int, executeUpdate fields criteria values a = .failBeforeSQL msg)
        ∧ (∀ a : Int, executeRemove fields criteria a = .failBeforeSQL msg))
    ∧ (pkFields fields = [] →
        (∀ a : Int, executeUpdate fields criteria values a = .failBeforeSQL "Missing primary key")
        ∧ (∀ a : Int, executeRemove fields criteria a = .failBeforeSQL "Missing primary key"))
    ∧ ((∀ f ∈ pkFields fields, recHasKey criteria f.name = true) → pkFields fields ≠ [] →
        affected < 1 →
        ∃ pk : Rec, executeUpdate fields criteria values affected = .rowNotFound pk
          ∧ executeRemove fields criteria affected = .rowNotFound pk) := by
  refine ⟨?_, ?_, ?_⟩
  · rintro ⟨f, hf, hk⟩
    obtain ⟨msg, hmsg⟩ := getPKValueLoop_error_of_missing criteria (pkFields fields) f hf hk
    exact ⟨msg, fun a => by simp [executeUpdate, getPKValue, hmsg],
      fun a => by simp [executeRemove, getPKValue, hmsg]⟩
  · intro h0
    constructor
    · intro a
      simp [executeUpdate, getPKValue, h0, getPKValueLoop]
    · intro a
      simp [executeRemove, getPKValue, h0, getPKValueLoop]
  · intro hall hne haff
    obtain ⟨r, hr, hlen⟩ := getPKValueLoop_ok_of_all criteria (pkFields fields) hall
    have hpos : 0 < (pkFields fields).length := List.length_pos.mpr hne
    have hnotlt : ¬ (r.length < 1) := by omega
    exact ⟨r, by simp [executeUpdate, getPKValue, hr, hnotlt, haff],
      by simp [executeRemove, getPKValue, hr, hnotlt, haff]⟩

/-- Witness for C7: descriptor with PK `id`; empty criteria fail before any
SQL, full-PK criteria with zero affected rows fail as row-not-found. -/
theorem c7_update_remove_primary_key_witness :
    (∃ msg, (∀ a : Int, executeUpdate [{ name := "id", primaryKey := true }] [] [] a
        = .failBeforeSQL msg)
      ∧ (∀ a : Int, executeRemove [{ name := "id", primaryKey := true }] [] a
        = .failBeforeSQL msg))
    ∧ (∃ pk : Rec,
        executeUpdate [{ name := "id", primaryKey := true }] [("id", .num 7)] [] 0
          = .rowNotFound pk
        ∧ executeRemove [{ name := "id", primaryKey := true }] [("id", .num 7)] 0
          = .rowNotFound pk) := by
  constructor
  · exact (c7_update_remove_primary_key [{ name := "id", primaryKey := true }] [] [] 0).1
      ⟨{ name := "id", primaryKey := true }, by decide, by decide⟩
  · exact (c7_update_remove_primary_key [{ name := "id", primaryKey := true }]
      [("id", .num 7)] [] 0).2.2 (by decide) (by decide) (by decide)

/-- C8. The claim says the REST URL path is split into non-empty segments and
overlaid onto the operations; the code instead calls `.split("/")` on the
Array that `.split("?")` produced, so `requestPath` throws a TypeError for
every non-empty path parameter and no overlay can happen. -/
theorem c8_requestPath_type_error (p : String) (h : p ≠ "") :
    requestPath (some p) = .error (.typeError "pathParts.split is not a function") := by
  simp [requestPath, h]

/-- Witness for C8 at the path `country/fetch/1`. -/
theorem c8_requestPath_type_error_witness :
    "country/fetch/1" ≠ ""
    ∧ requestPath (some "country/fetch/1")
        = .error (.typeError "pathParts.split is not a function") :=
  ⟨by decide, c8_requestPath_type_error "country/fetch/1" (by decide)⟩

/-- `projValue` on a present record, unfolded. -/
lemma projValue_some (rcd : Rec) (n : String) :
    projValue (some rcd) n = if recHasKey rcd n then recGet rcd n else .null := rfl

/-- A record lookup steps past a pair with a different key. -/
lemma recGet_cons_of_ne {m n : String} {v : JSVal} {l : Rec} (h : m ≠ n) :
    recGet ((m, v) :: l) n = recGet l n := by
  have hd : (decide (m = n)) = false := by simp [h]
  simp [recGet, List.find?, hd]

/-- A record lookup hits a pair with the same key. -/
lemma recGet_cons_self {n : String} {v : JSVal} {l : Rec} :
    recGet ((n, v) :: l) n = v := by
  simp [recGet, List.find?]

/-- Key membership steps past a pair with a different key. -/
lemma recHasKey_cons_of_ne {m n : String} {v : JSVal} {l : Rec} (h : m ≠ n) :
    recHasKey ((m, v) :: l) n = recHasKey l n := by
  have hd : (decide (m = n)) = false := by simp [h]
  simp [recHasKey, List.find?, hd]

/-- Key membership hits a pair with the same key. -/
lemma recHasKey_cons_self {n : String} {v : JSVal} {l : Rec} :
    recHasKey ((n, v) :: l) n = true := by
  simp [recHasKey, List.find?]

/-- Looking a name up in a projected record: the projected value for names
among the projection's key list, `undefined` otherwise. -/
lemma recGet_map_projValue (r0 : Option Rec) (n : String) (fns : List String) :
    recGet (fns.map (fun m => (m, projValue r0 m))) n
      = if n ∈ fns then projValue r0 n else .undefined := by
  induction fns with
  | nil => simp [recGet]
  | cons m rest ih =>
    by_cases hm : m = n
    · subst hm
      simp only [List.map_cons]
      rw [recGet_cons_self]
      simp
    · simp only [List.map_cons]
      rw [recGet_cons_of_ne hm, ih]
      have hnm : ¬ (n = m) := fun h => hm h.symm
      simp [List.mem_cons, hnm]

/-- Key membership in a projected record. -/
lemma recHasKey_map_projValue (r0 : Option Rec) (n : String) (fns : List String) :
    recHasKey (fns.map (fun m => (m, projValue r0 m))) n = decide (n ∈ fns) := by
  induction fns with
  | nil => simp [recHasKey]
  | cons m rest ih =>
    by_cases hm : m = n
    · subst hm
      simp only [List.map_cons]
      rw [recHasKey_cons_self]
      simp
    · simp only [List.map_cons]
      rw [recHasKey_cons_of_ne hm, ih]
      have hnm : ¬ (n = m) := fun h => hm h.symm
      simp [List.mem_cons, hnm]

/-- Projecting a projected record changes nothing. -/
lemma projectRecord_idem (fields : List DSField) (r0 : Option Rec) :
    projectRecord fields (some (projectRecord fields r0)) = projectRecord fields r0 := by
  unfold projectRecord
  refine List.map_congr_left ?_
  intro n hn
  have hk : recHasKey ((fieldNames fields).map (fun m => (m, projValue r0 m))) n = true := by
    rw [recHasKey_map_projValue]
    simpa using hn
  have hv := recGet_map_projValue r0 n (fieldNames fields)
  rw [if_pos hn] at hv
  have step : projValue (some ((fieldNames fields).map (fun m => (m, projValue r0 m)))) n
      = projValue r0 n := by
    rw [projValue_some, hv]
    simp [hk]
  rw [step]

/-- C9. `toRecords` is an idempotent projection: feeding its result back in
reproduces it, a single object maps to the single projected record, and each
projected record carries exactly the descriptor's field names as keys, with
the input's value for present keys and `null` for absent ones. -/
theorem c9_toRecords_idempotent_projection (fields : List DSField) :
    (∀ x : RecordsIn, toRecords fields (recordsOutToIn (toRecords fields x)) = toRecords fields x)
    ∧ (∀ r : Rec, toRecords fields (.single r) = .single (projectRecord fields (some r)))
    ∧ (∀ r0 : Option Rec, (projectRecord fields r0).map Prod.fst = fieldNames fields)
    ∧ (∀ (r : Rec) (n : String),
        recGet (projectRecord fields (some r)) n
          = if n ∈ fieldNames fields
            then (if recHasKey r n then recGet r n else .null)
            else .undefined) := by
  refine ⟨?_, fun r => rfl, ?_, ?_⟩
  · intro x
    cases x with
    | nullIn => rfl
    | single r =>
      simp [toRecords, recordsOutToIn, projectRecord_idem]
    | list rs =>
      simp only [toRecords, recordsOutToIn, List.map_map]
      congr 1
      refine List.map_congr_left ?_
      intro r _
      exact projectRecord_idem fields r
  · intro r0
    simp only [projectRecord, List.map_map]
    exact List.map_id _
  · intro r n
    have h := recGet_map_projValue (some r) n (fieldNames fields)
    rw [projectRecord, h]
    by_cases hn : n ∈ fieldNames fields <;> simp [hn, projValue_some]

/-- Closed form of the `endRow` setter. -/
lemma dsRespSetEndRow_eq (s : DSRespState) (v : JSVal) :
    dsRespSetEndRow s v =
      { s with
        startRow :=
          if s.startRow > (jsParseInt v).getD (-1)
          then (if (jsParseInt v).getD (-1) > 0 then (jsParseInt v).getD (-1) else 0)
          else s.startRow,
        endRow := (jsParseInt v).getD (-1) } := by
  simp only [dsRespSetEndRow, dsRespSetStartRow, jsParseInt, Option.getD_some]
  split_ifs <;> rfl

/-- C10. Every `endRow` assignment re-establishes
`startRow ≤ max(endRow, 0)`: when the current `startRow` exceeds the new
`endRow`, the setter rewrites `startRow` to `endRow` (when positive) or 0;
a value that does not parse is stored as -1, `totalRows` is untouched, and
`toObject` omits each of `startRow`, `endRow`, `totalRows` exactly when the
stored value is negative. -/
theorem c10_endRow_setter_invariant (s : DSRespState) (v : JSVal) :
    (dsRespSetEndRow s v).startRow ≤ max (dsRespSetEndRow s v).endRow 0
    ∧ (dsRespSetEndRow s v).endRow = (jsParseInt v).getD (-1)
    ∧ (dsRespSetEndRow s v).startRow
        = (if s.startRow > (jsParseInt v).getD (-1)
           then (if (jsParseInt v).getD (-1) > 0 then (jsParseInt v).getD (-1) else 0)
           else s.startRow)
    ∧ (dsRespSetEndRow s v).totalRows = s.totalRows
    ∧ (dsRespToObjectHasStartRow (dsRespSetEndRow s v) = false
        ↔ (dsRespSetEndRow s v).startRow < 0)
    ∧ (dsRespToObjectHasEndRow (dsRespSetEndRow s v) = false
        ↔ (dsRespSetEndRow s v).endRow < 0)
    ∧ (dsRespToObjectHasTotalRows (dsRespSetEndRow s v) = false
        ↔ (dsRespSetEndRow s v).totalRows < 0) := by
  rw [dsRespSetEndRow_eq]
  refine ⟨?_, rfl, rfl, rfl, ?_, ?_, ?_⟩
  · dsimp only
    split_ifs <;> omega
  · simp [dsRespToObjectHasStartRow]
  · simp [dsRespToObjectHasEndRow]
  · simp [dsRespToObjectHasTotalRows]

end SCRPC
